import Mathlib

/-!
Verification of the Spyder configuration-observer mixin
(`spyder/api/config/mixins.py`) and of the completion protocol constants
module (`spyder/plugins/completion/api.py`).

Python dictionaries are modelled as insertion-ordered association lists
with unique keys; `dictGet`, `dictSet` and `dictPop` mirror `dict.get`,
item assignment and `dict.pop`.
-/

/-- `d.get(k, dflt)` on a Python dict modelled as an association list. -/
def dictGet {α β : Type} [DecidableEq α] (d : List (α × β)) (k : α) (dflt : β) : β :=
  match d with
  | [] => dflt
  | (k', v) :: rest => if k' = k then v else dictGet rest k dflt

/-- `d.get(k)` returning `none` when the key is absent. -/
def dictGet? {α β : Type} [DecidableEq α] (d : List (α × β)) (k : α) : Option β :=
  match d with
  | [] => none
  | (k', v) :: rest => if k' = k then some v else dictGet? rest k

/-- `d[k] = v`: update in place when the key exists (Python dicts keep the
original insertion position), append otherwise. -/
def dictSet {α β : Type} [DecidableEq α] (d : List (α × β)) (k : α) (v : β) : List (α × β) :=
  match d with
  | [] => [(k, v)]
  | (k', v') :: rest => if k' = k then (k, v) :: rest else (k', v') :: dictSet rest k v

/-- `d.pop(k, None)`: remove the key `k` (association lists built by
`dictSet` have unique keys, so a filter is exact). -/
def dictPop {α β : Type} [DecidableEq α] (d : List (α × β)) (k : α) : List (α × β) :=
  d.filter (fun p => decide (p.1 ≠ k))

/-- `k in d` for a Python dict. -/
def dictMem {α β : Type} [DecidableEq α] (d : List (α × β)) (k : α) : Bool :=
  d.any (fun p => decide (p.1 = k))

theorem dictGet_dictSet_same {α β : Type} [DecidableEq α]
    (d : List (α × β)) (k : α) (v dflt : β) :
    dictGet (dictSet d k v) k dflt = v := by
  induction d with
  | nil => simp [dictGet, dictSet]
  | cons hd tl ih =>
    by_cases h : hd.1 = k
    · simp [dictSet, dictGet, h]
    · simp [dictSet, dictGet, h, ih]

theorem dictGet_dictSet_ne {α β : Type} [DecidableEq α]
    (d : List (α × β)) (k k' : α) (v : β) (dflt : β) (h : k ≠ k') :
    dictGet (dictSet d k v) k' dflt = dictGet d k' dflt := by
  induction d with
  | nil => simp [dictGet, dictSet, h]
  | cons hd tl ih =>
    by_cases hk : hd.1 = k
    · simp [dictSet, dictGet, hk, h]
    · simp only [dictSet, hk, if_false]
      by_cases hk' : hd.1 = k'
      · simp [dictGet, hk']
      · simp [dictGet, hk', ih]

theorem dictGet_of_not_mem_keys {α β : Type} [DecidableEq α]
    (d : List (α × β)) (k : α) (dflt : β) (h : k ∉ d.map Prod.fst) :
    dictGet d k dflt = dflt := by
  induction d with
  | nil => rfl
  | cons hd tl ih =>
    simp only [List.map_cons, List.mem_cons, not_or] at h
    have hne : ¬ hd.1 = k := fun hk => h.1 hk.symm
    simp [dictGet, hne, ih h.2]

theorem dictGet_dictPop_ne {α β : Type} [DecidableEq α]
    (d : List (α × β)) (k kp : α) (dflt : β) (h : k ≠ kp) :
    dictGet (dictPop d kp) k dflt = dictGet d k dflt := by
  induction d with
  | nil => rfl
  | cons hd tl ih =>
    simp only [dictPop, ne_eq, decide_not] at *
    by_cases hk : hd.1 = kp
    · have h2 : ¬ kp = k := fun hc => h hc.symm
      simp [List.filter_cons, hk, dictGet, h2, ih]
    · simp [List.filter_cons, hk, dictGet, ih]

theorem dictMem_dictPop_self {α β : Type} [DecidableEq α]
    (d : List (α × β)) (k : α) :
    dictMem (dictPop d k) k = false := by
  simp [dictMem, dictPop, List.any_eq_true, List.mem_filter]

/-!
## Configuration observer mixin (`spyder/api/config/mixins.py`)

A `ConfigurationKey` is either an option name or a tuple path.  A receiver
stored in `_configuration_listeners` is either a bound-method name (added by
`_gather_observers`) or an external callable (added by
`add_configuration_observer`).  Sections are `Option String`: `none` models
Python's `None` (both as a section argument and as a dict key).
-/

/-- `ConfigurationKey = Union[str, Tuple[str, ...]]`. -/
inductive ConfKey
  | name (s : String)
  | path (p : List String)
deriving DecidableEq, Repr

/-- An entry of a `_configuration_listeners` option list: the method name
stored by `_gather_observers`, or the callable passed to
`add_configuration_observer` (identified by a tag). -/
inductive Receiver
  | method (methodName : String)
  | func (id : Nat)
deriving DecidableEq, Repr

/-- The `_configuration_listeners` dict: section -> option -> receivers. -/
abbrev Listeners := List (Option String × List (ConfKey × List Receiver))

/-- State of a `SpyderConfigurationObserver` instance: the listener registry
and the `_multi_option_listeners` set of method names. -/
structure ObserverState where
  _configuration_listeners : Listeners
  _multi_option_listeners : List String
deriving DecidableEq, Repr

/-- `SpyderConfigurationObserver._add_listener(func, option, section)`. -/
def _add_listener (listeners : Listeners) (func : Receiver) (opt : ConfKey)
    (sec : Option String) : Listeners :=
  let section_listeners := dictGet listeners sec []
  let option_listeners := dictGet section_listeners opt []
  let option_listeners := option_listeners ++ [func]
  let section_listeners := dictSet section_listeners opt option_listeners
  dictSet listeners sec section_listeners

/-- A method decorated with `on_conf_change`, as seen by
`_gather_observers`: its name and its `_conf_listen` list of
`(section, option)` pairs. -/
structure ObserverDecl where
  name : String
  info : List (Option String × ConfKey)
deriving DecidableEq, Repr

/-- `s |= {x}` on a Python set of method names. -/
def setInsert (l : List String) (x : String) : List String :=
  if x ∈ l then l else l ++ [x]

/-- Body of the `_gather_observers` loop for one decorated method: record it
in `_multi_option_listeners` when `len(info) > 1` and add it as listener of
each of its `(section, option)` pairs. -/
def gatherDecl (st : ObserverState) (d : ObserverDecl) : ObserverState :=
  let st :=
    if 1 < d.info.length then
      { st with _multi_option_listeners := setInsert st._multi_option_listeners d.name }
    else st
  d.info.foldl (fun st p =>
    let ls := _add_listener st._configuration_listeners (Receiver.method d.name) p.2 p.1
    { st with _configuration_listeners := ls }) st

/-- `SpyderConfigurationObserver._gather_observers()`: iterate over the
methods decorated with `on_conf_change`. -/
def _gather_observers (decls : List ObserverDecl) (st : ObserverState) :
    ObserverState :=
  decls.foldl gatherDecl st

/-- `SpyderConfigurationObserver._merge_none_observers()`: move the
listeners registered under the `None` section below `CONF_SECTION` (the
`conf_section` argument) and drop the `None` key. -/
def _merge_none_observers (conf_section : Option String)
    (listeners : Listeners) : Listeners :=
  let default_selectors := dictGet listeners none []
  let section_selectors := dictGet listeners conf_section []
  let section_selectors := default_selectors.foldl
    (fun ss p =>
      let default_option_receivers := p.2
      let section_option_receivers := dictGet ss p.1 []
      dictSet ss p.1 (default_option_receivers ++ section_option_receivers))
    section_selectors
  let listeners := dictSet listeners conf_section section_selectors
  dictPop listeners none

/-- `SpyderConfigurationObserver.__init__`: start from empty registries,
gather the decorated methods, then merge the `None`-section observers.
(The calls to `CONF.observe_configuration` do not touch the state.) -/
def observer_init (conf_section : Option String)
    (decls : List ObserverDecl) : ObserverState :=
  let st := _gather_observers decls ⟨[], []⟩
  let ls := _merge_none_observers conf_section st._configuration_listeners
  { st with _configuration_listeners := ls }

/-- How a receiver is invoked by `on_configuration_change`. -/
inductive CallArgs (V : Type)
  | single (value : V)
  | withOption (opt : ConfKey) (value : V)
deriving DecidableEq, Repr

/-- `receiver in self._multi_option_listeners` (a set of method names). -/
def receiverInMulti (multi : List String) : Receiver → Bool
  | Receiver.method n => decide (n ∈ multi)
  | Receiver.func _ => false

/-- `SpyderConfigurationObserver.on_configuration_change(option, section,
value)`: returns the sequence of receiver invocations it performs together
with the (unchanged) observer state. -/
def on_configuration_change {V : Type} (st : ObserverState) (opt : ConfKey)
    (sec : Option String) (value : V) :
    List (Receiver × CallArgs V) × ObserverState :=
  let section_receivers := dictGet st._configuration_listeners sec []
  let option_receivers := dictGet section_receivers opt []
  (option_receivers.map (fun receiver =>
    (receiver,
     if receiverInMulti st._multi_option_listeners receiver then
       CallArgs.withOption opt value
     else
       CallArgs.single value)), st)

/-- `SpyderConfigurationObserver.add_configuration_observer(func, option,
section)`. -/
def add_configuration_observer (conf_section : Option String)
    (st : ObserverState) (func : Receiver) (opt : ConfKey)
    (sec : Option String) : ObserverState :=
  let sec := match sec with
    | none => conf_section
    | some s => some s
  let ls := _add_listener st._configuration_listeners func opt sec
  { st with _configuration_listeners := ls }

/-- Receivers stored for `(sec, opt)` in the registry. -/
def lookupReceivers (listeners : Listeners) (sec : Option String)
    (opt : ConfKey) : List Receiver :=
  dictGet (dictGet listeners sec []) opt []

/-- A sequence of `_add_listener` calls, starting from the empty registry. -/
def registerAll (regs : List (Receiver × ConfKey × Option String)) :
    Listeners :=
  regs.foldl (fun l r => _add_listener l r.1 r.2.1 r.2.2) []

theorem lookupReceivers_add_listener (l : Listeners) (f : Receiver)
    (opt opt' : ConfKey) (sec sec' : Option String) :
    lookupReceivers (_add_listener l f opt sec) sec' opt'
      = if sec = sec' ∧ opt = opt' then lookupReceivers l sec' opt' ++ [f]
        else lookupReceivers l sec' opt' := by
  unfold lookupReceivers _add_listener
  by_cases hs : sec = sec'
  · subst hs
    rw [dictGet_dictSet_same]
    by_cases ho : opt = opt'
    · subst ho
      rw [dictGet_dictSet_same]
      simp
    · rw [dictGet_dictSet_ne _ _ _ _ _ ho]
      simp [ho]
  · rw [dictGet_dictSet_ne _ _ _ _ _ hs]
    simp [hs]

theorem lookupReceivers_registerAll_aux
    (regs : List (Receiver × ConfKey × Option String)) (l : Listeners)
    (sec : Option String) (opt : ConfKey) :
    lookupReceivers (regs.foldl (fun l r => _add_listener l r.1 r.2.1 r.2.2) l)
        sec opt
      = lookupReceivers l sec opt
        ++ (regs.filter (fun r => decide (r.2.2 = sec) && decide (r.2.1 = opt))).map
            Prod.fst := by
  induction regs generalizing l with
  | nil => simp
  | cons hd tl ih =>
    simp only [List.foldl_cons, List.filter_cons]
    rw [ih]
    by_cases hs : hd.2.2 = sec
    · by_cases ho : hd.2.1 = opt
      · rw [lookupReceivers_add_listener]
        simp [hs, ho]
      · rw [lookupReceivers_add_listener]
        simp [hs, ho]
    · rw [lookupReceivers_add_listener]
      simp [hs]

theorem lookupReceivers_registerAll
    (regs : List (Receiver × ConfKey × Option String))
    (sec : Option String) (opt : ConfKey) :
    lookupReceivers (registerAll regs) sec opt
      = (regs.filter (fun r => decide (r.2.2 = sec) && decide (r.2.1 = opt))).map
          Prod.fst := by
  rw [registerAll, lookupReceivers_registerAll_aux]
  rfl

/-- C1: the configuration-observer mixin is a fan-out registry: for a
registry built by a sequence of `_add_listener` registrations,
`on_configuration_change(option, section, value)` calls exactly the
receivers registered for `(section, option)`, in registration order, each
single-option receiver (one not in `_multi_option_listeners`) with the new
value alone. -/
theorem on_configuration_change_fanout {V : Type}
    (regs : List (Receiver × ConfKey × Option String)) (multi : List String)
    (opt : ConfKey) (sec : Option String) (value : V) :
    (on_configuration_change ⟨registerAll regs, multi⟩ opt sec value).1
      = (regs.filter (fun r => decide (r.2.2 = sec) && decide (r.2.1 = opt))).map
          (fun r =>
            (r.1,
             if receiverInMulti multi r.1 then CallArgs.withOption opt value
             else CallArgs.single value)) := by
  show (lookupReceivers (registerAll regs) sec opt).map
      (fun receiver =>
        (receiver,
         if receiverInMulti multi receiver then CallArgs.withOption opt value
         else CallArgs.single value)) = _
  rw [lookupReceivers_registerAll, List.map_map]
  rfl

/-- C8: when no listener is registered for `(section, option)`,
`on_configuration_change` performs no receiver invocation and leaves the
observer state unchanged. -/
theorem on_configuration_change_no_listeners {V : Type} (st : ObserverState)
    (opt : ConfKey) (sec : Option String) (value : V)
    (h : lookupReceivers st._configuration_listeners sec opt = []) :
    (on_configuration_change st opt sec value).1 = []
    ∧ (on_configuration_change st opt sec value).2 = st := by
  constructor
  · show (lookupReceivers st._configuration_listeners sec opt).map _ = []
    rw [h]
    rfl
  · rfl

/-- Witness for C8 at the empty registry. -/
theorem on_configuration_change_no_listeners_witness :
    (on_configuration_change (V := Nat) ⟨[], []⟩ (ConfKey.name "opt") (some "sec") 0).1 = []
    ∧ (on_configuration_change (V := Nat) ⟨[], []⟩ (ConfKey.name "opt") (some "sec") 0).2 = ⟨[], []⟩ :=
  on_configuration_change_no_listeners ⟨[], []⟩ (ConfKey.name "opt") (some "sec") 0 rfl

theorem mem_setInsert (l : List String) (x y : String) :
    y ∈ setInsert l x ↔ y ∈ l ∨ y = x := by
  by_cases h : x ∈ l
  · simp only [setInsert, h, if_true]
    constructor
    · exact Or.inl
    · rintro (hy | rfl)
      · exact hy
      · exact h
  · simp [setInsert, h]

theorem addInfoListeners_multi (n : String)
    (info : List (Option String × ConfKey)) (st : ObserverState) :
    (info.foldl (fun st p =>
      let ls := _add_listener st._configuration_listeners (Receiver.method n) p.2 p.1
      { st with _configuration_listeners := ls }) st)._multi_option_listeners
      = st._multi_option_listeners := by
  induction info generalizing st with
  | nil => rfl
  | cons hd tl ih => simp only [List.foldl_cons]; rw [ih]

theorem gatherDecl_multi (st : ObserverState) (d : ObserverDecl) :
    (gatherDecl st d)._multi_option_listeners
      = if 1 < d.info.length then setInsert st._multi_option_listeners d.name
        else st._multi_option_listeners := by
  unfold gatherDecl
  by_cases h : 1 < d.info.length
  · simp only [h, if_true]
    rw [addInfoListeners_multi]
  · simp only [h, if_false]
    rw [addInfoListeners_multi]

theorem mem_gather_multi (decls : List ObserverDecl) (st : ObserverState)
    (m : String) :
    m ∈ (_gather_observers decls st)._multi_option_listeners
      ↔ m ∈ st._multi_option_listeners
        ∨ ∃ d ∈ decls, d.name = m ∧ 1 < d.info.length := by
  induction decls generalizing st with
  | nil => simp [_gather_observers]
  | cons hd tl ih =>
    simp only [_gather_observers, List.foldl_cons] at *
    rw [ih, gatherDecl_multi]
    by_cases h : 1 < hd.info.length
    · simp only [h, if_true, mem_setInsert, List.exists_mem_cons_iff]
      constructor
      · rintro ((hm | rfl) | hex)
        · exact Or.inl hm
        · exact Or.inr (Or.inl ⟨rfl, trivial⟩)
        · exact Or.inr (Or.inr hex)
      · rintro (hm | ⟨rfl, _⟩ | hex)
        · exact Or.inl (Or.inl hm)
        · exact Or.inl (Or.inr rfl)
        · exact Or.inr hex
    · simp only [h, if_false, List.exists_mem_cons_iff]
      constructor
      · rintro (hm | hex)
        · exact Or.inl hm
        · exact Or.inr (Or.inr hex)
      · rintro (hm | ⟨_, hlen⟩ | hex)
        · exact Or.inl hm
        · exact hlen.elim
        · exact Or.inr hex

/-- C7: after `__init__`, a method registered via `on_conf_change` metadata
for more than one `(section, option)` pair is dispatched with
`(option, value)`, while a method registered for no more than one pair is
dispatched with the value alone. -/
theorem multi_option_receiver_dispatch {V : Type} (cs : Option String)
    (decls : List ObserverDecl) (opt : ConfKey) (sec : Option String)
    (value : V) (m : String) (args : CallArgs V)
    (h : (Receiver.method m, args)
          ∈ (on_configuration_change (observer_init cs decls) opt sec value).1) :
    (args = CallArgs.withOption opt value
      ↔ ∃ d ∈ decls, d.name = m ∧ 1 < d.info.length)
    ∧ (args = CallArgs.single value
      ↔ ¬ ∃ d ∈ decls, d.name = m ∧ 1 < d.info.length) := by
  have hmem : ∃ r ∈ lookupReceivers
        (observer_init cs decls)._configuration_listeners sec opt,
      (r, if receiverInMulti (observer_init cs decls)._multi_option_listeners r
          then CallArgs.withOption opt value else CallArgs.single value)
        = (Receiver.method m, args) := by
    rw [← List.mem_map]
    exact h
  obtain ⟨r, _, heq⟩ := hmem
  rw [Prod.mk.injEq] at heq
  obtain ⟨hr, hargs⟩ := heq
  subst hr
  have hmulti : (observer_init cs decls)._multi_option_listeners
      = (_gather_observers decls ⟨[], []⟩)._multi_option_listeners := rfl
  have hmm := mem_gather_multi decls ⟨[], []⟩ m
  by_cases hb : m ∈ (_gather_observers decls ⟨[], []⟩)._multi_option_listeners
  · have hex : ∃ d ∈ decls, d.name = m ∧ 1 < d.info.length := by
      rcases hmm.mp hb with hfalse | hex
      · exact absurd hfalse (List.not_mem_nil m)
      · exact hex
    have hdisp : receiverInMulti
        (observer_init cs decls)._multi_option_listeners (Receiver.method m)
        = true := by
      rw [hmulti]
      simp [receiverInMulti, hb]
    rw [hdisp] at hargs
    simp only [if_true] at hargs
    subst hargs
    constructor
    · exact ⟨fun _ => hex, fun _ => rfl⟩
    · constructor
      · intro hc
        exact absurd hc (by simp)
      · intro hc
        exact absurd hex hc
  · have hnex : ¬ ∃ d ∈ decls, d.name = m ∧ 1 < d.info.length := by
      intro hex
      exact hb (hmm.mpr (Or.inr hex))
    have hdisp : receiverInMulti
        (observer_init cs decls)._multi_option_listeners (Receiver.method m)
        = false := by
      rw [hmulti]
      simp [receiverInMulti, hb]
    rw [hdisp] at hargs
    simp only [Bool.false_eq_true, if_false] at hargs
    subst hargs
    constructor
    · constructor
      · intro hc
        exact absurd hc (by simp)
      · intro hex
        exact absurd hex hnex
    · exact ⟨fun _ => hnex, fun _ => rfl⟩

/-- Witness for C7: a method listening on two pairs is dispatched with the
option and the value. -/
theorem multi_option_receiver_dispatch_witness :
    ∃ d ∈ [ObserverDecl.mk "restart"
            [(some "sec", ConfKey.name "a"), (some "sec", ConfKey.name "b")]],
      d.name = "restart" ∧ 1 < d.info.length :=
  (multi_option_receiver_dispatch (some "sec")
    [ObserverDecl.mk "restart"
      [(some "sec", ConfKey.name "a"), (some "sec", ConfKey.name "b")]]
    (ConfKey.name "a") (some "sec") (0 : Nat) "restart"
    (CallArgs.withOption (ConfKey.name "a") 0) (by decide)).1.mp rfl

/-- The keys of a modelled Python dict are pairwise distinct. -/
def dictNodupKeys {α β : Type} (d : List (α × β)) : Prop :=
  (d.map Prod.fst).Nodup

/-- The `_configuration_listeners` registry is a genuine dict of dicts:
section keys are distinct, and in every per-section dict the option keys
are distinct. -/
def WFListeners (l : Listeners) : Prop :=
  dictNodupKeys l ∧ ∀ p ∈ l, dictNodupKeys p.2

theorem mem_keys_dictSet {α β : Type} [DecidableEq α]
    (d : List (α × β)) (k a : α) (v : β) :
    a ∈ (dictSet d k v).map Prod.fst ↔ a ∈ d.map Prod.fst ∨ a = k := by
  induction d with
  | nil => simp [dictSet]
  | cons hd tl ih =>
    by_cases h : hd.1 = k
    · subst h
      simp only [dictSet, if_true, List.map_cons, List.mem_cons]
      constructor
      · rintro (rfl | ha)
        · exact Or.inr rfl
        · exact Or.inl (Or.inr ha)
      · rintro ((rfl | ha) | rfl)
        · exact Or.inl rfl
        · exact Or.inr ha
        · exact Or.inl rfl
    · simp only [dictSet, h, if_false, List.map_cons, List.mem_cons, ih]
      tauto

theorem dictNodupKeys_dictSet {α β : Type} [DecidableEq α]
    (d : List (α × β)) (k : α) (v : β) (h : dictNodupKeys d) :
    dictNodupKeys (dictSet d k v) := by
  induction d with
  | nil => simp [dictSet, dictNodupKeys]
  | cons hd tl ih =>
    rw [dictNodupKeys, List.map_cons, List.nodup_cons] at h
    by_cases hk : hd.1 = k
    · subst hk
      rw [dictNodupKeys]
      simp only [dictSet, if_true, List.map_cons, List.nodup_cons]
      exact h
    · rw [dictNodupKeys]
      simp only [dictSet, hk, if_false, List.map_cons, List.nodup_cons]
      refine ⟨?_, ih h.2⟩
      rw [mem_keys_dictSet]
      rintro (ha | rfl)
      · exact h.1 ha
      · exact hk rfl

theorem mem_dictSet {α β : Type} [DecidableEq α]
    (d : List (α × β)) (k : α) (v : β) (p : α × β)
    (hp : p ∈ dictSet d k v) : p ∈ d ∨ p = (k, v) := by
  induction d with
  | nil => simp [dictSet] at hp; exact Or.inr hp
  | cons hd tl ih =>
    by_cases h : hd.1 = k
    · simp only [dictSet, h, if_true, List.mem_cons] at hp
      rcases hp with rfl | hp
      · exact Or.inr rfl
      · exact Or.inl (List.mem_cons_of_mem hd hp)
    · simp only [dictSet, h, if_false, List.mem_cons] at hp
      rcases hp with rfl | hp
      · exact Or.inl (List.mem_cons_self _ _)
      · rcases ih hp with hp | rfl
        · exact Or.inl (List.mem_cons_of_mem hd hp)
        · exact Or.inr rfl

theorem dictNodupKeys_dictPop {α β : Type} [DecidableEq α]
    (d : List (α × β)) (k : α) (h : dictNodupKeys d) :
    dictNodupKeys (dictPop d k) := by
  rw [dictNodupKeys]
  exact ((List.filter_sublist d).map Prod.fst).nodup h

theorem dictGet_cases {α β : Type} [DecidableEq α]
    (d : List (α × β)) (k : α) (dflt : β) :
    dictGet d k dflt = dflt ∨ ∃ p ∈ d, dictGet d k dflt = p.2 := by
  induction d with
  | nil => exact Or.inl rfl
  | cons hd tl ih =>
    by_cases h : hd.1 = k
    · refine Or.inr ⟨hd, List.mem_cons_self hd tl, ?_⟩
      simp [dictGet, h]
    · rcases ih with hd' | ⟨p, hp, he⟩
      · left
        simp [dictGet, h, hd']
      · refine Or.inr ⟨p, List.mem_cons_of_mem hd hp, ?_⟩
        simp [dictGet, h, he]

theorem WFListeners_add_listener (l : Listeners) (f : Receiver)
    (opt : ConfKey) (sec : Option String) (h : WFListeners l) :
    WFListeners (_add_listener l f opt sec) := by
  obtain ⟨h1, h2⟩ := h
  have hsec : dictNodupKeys (dictGet l sec []) := by
    rcases dictGet_cases l sec [] with he | ⟨p, hp, he⟩
    · rw [he]; simp [dictNodupKeys]
    · rw [he]; exact h2 p hp
  constructor
  · exact dictNodupKeys_dictSet _ _ _ h1
  · intro p hp
    rcases mem_dictSet _ _ _ _ hp with hp' | rfl
    · exact h2 p hp'
    · exact dictNodupKeys_dictSet _ _ _ hsec

theorem merge_fold_nodup (ds ss : List (ConfKey × List Receiver))
    (h : dictNodupKeys ss) :
    dictNodupKeys (ds.foldl
      (fun ss p =>
        let default_option_receivers := p.2
        let section_option_receivers := dictGet ss p.1 []
        dictSet ss p.1 (default_option_receivers ++ section_option_receivers))
      ss) := by
  induction ds generalizing ss with
  | nil => exact h
  | cons hd tl ih =>
    simp only [List.foldl_cons]
    exact ih _ (dictNodupKeys_dictSet _ _ _ h)

theorem WFListeners_merge_none_observers (cs : Option String) (l : Listeners)
    (h : WFListeners l) :
    WFListeners (_merge_none_observers cs l) := by
  obtain ⟨h1, h2⟩ := h
  have hss : dictNodupKeys (dictGet l cs []) := by
    rcases dictGet_cases l cs [] with he | ⟨p, hp, he⟩
    · rw [he]; simp [dictNodupKeys]
    · rw [he]; exact h2 p hp
  have hfold := merge_fold_nodup (dictGet l none []) (dictGet l cs []) hss
  constructor
  · exact dictNodupKeys_dictPop _ _ (dictNodupKeys_dictSet _ _ _ h1)
  · intro p hp
    have hp' : p ∈ dictSet l cs (List.foldl _ _ _) :=
      List.mem_of_mem_filter hp
    rcases mem_dictSet _ _ _ _ hp' with hp'' | rfl
    · exact h2 p hp''
    · exact hfold

theorem WFListeners_gatherDecl (st : ObserverState) (d : ObserverDecl)
    (h : WFListeners st._configuration_listeners) :
    WFListeners (gatherDecl st d)._configuration_listeners := by
  unfold gatherDecl
  generalize hst : (if 1 < d.info.length then
      { st with _multi_option_listeners := setInsert st._multi_option_listeners d.name }
    else st) = st'
  have h' : WFListeners st'._configuration_listeners := by
    rw [← hst]
    by_cases hl : 1 < d.info.length
    · simp only [hl, if_true]; exact h
    · simp only [hl, if_false]; exact h
  clear hst h
  induction d.info generalizing st' with
  | nil => exact h'
  | cons hd tl ih =>
    simp only [List.foldl_cons]
    exact ih _ (WFListeners_add_listener _ _ _ _ h')

theorem WFListeners_gather (decls : List ObserverDecl) (st : ObserverState)
    (h : WFListeners st._configuration_listeners) :
    WFListeners (_gather_observers decls st)._configuration_listeners := by
  induction decls generalizing st with
  | nil => exact h
  | cons hd tl ih =>
    simp only [_gather_observers, List.foldl_cons] at *
    exact ih _ (WFListeners_gatherDecl st hd h)

theorem merge_fold_get (ds ss : List (ConfKey × List Receiver))
    (opt : ConfKey) (hnd : dictNodupKeys ds) :
    dictGet (ds.foldl
      (fun ss p =>
        let default_option_receivers := p.2
        let section_option_receivers := dictGet ss p.1 []
        dictSet ss p.1 (default_option_receivers ++ section_option_receivers))
      ss) opt []
      = dictGet ds opt [] ++ dictGet ss opt [] := by
  induction ds generalizing ss with
  | nil => simp [dictGet]
  | cons hd tl ih =>
    rw [dictNodupKeys, List.map_cons, List.nodup_cons] at hnd
    simp only [List.foldl_cons]
    rw [ih _ hnd.2]
    by_cases ho : opt = hd.1
    · subst ho
      rw [dictGet_of_not_mem_keys tl hd.1 [] hnd.1]
      rw [dictGet_dictSet_same]
      simp [dictGet]
    · rw [dictGet_dictSet_ne _ _ _ _ _ (fun hc => ho hc.symm)]
      have : ¬ hd.1 = opt := fun hc => ho hc.symm
      simp [dictGet, this]

/-- C3: the listener registry mirrors configuration keys to callback lists:
`_add_listener`, `_merge_none_observers` and `add_configuration_observer`
keep `_configuration_listeners` a dict from sections to dicts from options
to receiver lists (distinct keys on both levels); after `__init__` the
registry is such a dict, `None` is not one of its section keys, and the
listeners declared with section `None` have been merged in front of those of
`CONF_SECTION`. -/
theorem configuration_listeners_registry_invariant
    (cs : Option String) (s : String) (decls : List ObserverDecl)
    (l : Listeners) (st : ObserverState) (f : Receiver)
    (opt opt' : ConfKey) (sec : Option String)
    (hwf : WFListeners l) (hst : WFListeners st._configuration_listeners) :
    WFListeners (_add_listener l f opt sec)
    ∧ WFListeners (_merge_none_observers cs l)
    ∧ WFListeners (add_configuration_observer cs st f opt sec)._configuration_listeners
    ∧ WFListeners (observer_init cs decls)._configuration_listeners
    ∧ dictMem (observer_init cs decls)._configuration_listeners none = false
    ∧ lookupReceivers (_merge_none_observers (some s) l) (some s) opt'
        = dictGet (dictGet l none []) opt' []
          ++ dictGet (dictGet l (some s) []) opt' [] := by
  have hempty : WFListeners (⟨[], []⟩ : ObserverState)._configuration_listeners :=
    ⟨List.nodup_nil, fun p hp => absurd hp (List.not_mem_nil p)⟩
  refine ⟨WFListeners_add_listener l f opt sec hwf,
          WFListeners_merge_none_observers cs l hwf, ?_, ?_, ?_, ?_⟩
  · show WFListeners (_add_listener st._configuration_listeners f opt _)
    exact WFListeners_add_listener _ _ _ _ hst
  · show WFListeners (_merge_none_observers cs
      (_gather_observers decls ⟨[], []⟩)._configuration_listeners)
    exact WFListeners_merge_none_observers _ _
      (WFListeners_gather decls ⟨[], []⟩ hempty)
  · show dictMem (dictPop _ none) none = false
    exact dictMem_dictPop_self _ _
  · show dictGet (dictGet (dictPop (dictSet l (some s) _) none) (some s) [])
        opt' [] = _
    rw [dictGet_dictPop_ne _ _ _ _ (Option.some_ne_none s),
        dictGet_dictSet_same]
    have hnd : dictNodupKeys (dictGet l none []) := by
      rcases dictGet_cases l none ([] : List (ConfKey × List Receiver)) with
        he | ⟨p, hp, he⟩
      · rw [he]; exact List.nodup_nil
      · rw [he]; exact hwf.2 p hp
    exact merge_fold_get _ _ opt' hnd

/-- Witness for C3: after `__init__` of an observer with one method
listening on a `None`-section option, `None` is not a key of the registry. -/
theorem configuration_listeners_registry_invariant_witness :
    dictMem (observer_init (some "sec")
      [ObserverDecl.mk "m" [(none, ConfKey.name "o")]])._configuration_listeners
      none = false :=
  (configuration_listeners_registry_invariant (some "sec") "sec"
    [ObserverDecl.mk "m" [(none, ConfKey.name "o")]] [] ⟨[], []⟩
    (Receiver.func 0) (ConfKey.name "o") (ConfKey.name "o") none
    ⟨List.nodup_nil, fun p hp => absurd hp (List.not_mem_nil p)⟩
    ⟨List.nodup_nil, fun p hp => absurd hp (List.not_mem_nil p)⟩).2.2.2.2.1

/-!
## Configuration accessor mixin (`SpyderConfigurationAccessor`)

Each accessor resolves the effective section (`self.CONF_SECTION` when the
`section` argument is `None`), raises `AttributeError` when the result is
still `None`, and otherwise performs exactly one call into the `CONF`
manager.  The `Except` result makes the raise-before-any-CONF-call order
explicit: an error carries no `ConfEffect`.
-/

/-- Python exceptions relevant here; `custom` stands for any non-built-in
exception class a module could define. -/
inductive PyExn
  | attributeError (msg : String)
  | typeError (msg : String)
  | custom (className : String) (msg : String)
deriving DecidableEq, Repr

/-- Whether an exception value is of a Python built-in exception type. -/
def isBuiltinExn : PyExn → Bool
  | PyExn.attributeError _ => true
  | PyExn.typeError _ => true
  | PyExn.custom _ _ => false

/-- The single call into the `CONF` manager an accessor performs. -/
inductive ConfEffect (V : Type)
  | confGet (sec : String) (opt : ConfKey) (default : Option V) (secure : Bool)
  | confOptions (sec : String)
  | confSet (sec : String) (opt : ConfKey) (value : V)
      (recursive_notification : Bool) (secure : Bool)
  | confRemoveOption (sec : String) (opt : ConfKey) (secure : Bool)
  | confGetDefault (sec : String) (opt : ConfKey)
deriving DecidableEq, Repr

/-- The `AttributeError` message raised by every accessor. -/
def CONF_SECTION_ERROR : PyExn :=
  PyExn.attributeError
    "A SpyderConfigurationAccessor must define a CONF_SECTION class attribute!"

/-- `SpyderConfigurationAccessor.get_conf`. -/
def get_conf {V : Type} (conf_section : Option String) (opt : ConfKey)
    (default : Option V) (sec : Option String) (secure : Bool) :
    Except PyExn (ConfEffect V) :=
  let sec := match sec with
    | none => conf_section
    | some s => some s
  match sec with
  | none => Except.error CONF_SECTION_ERROR
  | some s => Except.ok (ConfEffect.confGet s opt default secure)

/-- `SpyderConfigurationAccessor.get_conf_options`. -/
def get_conf_options {V : Type} (conf_section : Option String)
    (sec : Option String) : Except PyExn (ConfEffect V) :=
  let sec := match sec with
    | none => conf_section
    | some s => some s
  match sec with
  | none => Except.error CONF_SECTION_ERROR
  | some s => Except.ok (ConfEffect.confOptions s)

/-- `SpyderConfigurationAccessor.set_conf`. -/
def set_conf {V : Type} (conf_section : Option String) (opt : ConfKey)
    (value : V) (sec : Option String) (recursive_notification : Bool)
    (secure : Bool) : Except PyExn (ConfEffect V) :=
  let sec := match sec with
    | none => conf_section
    | some s => some s
  match sec with
  | none => Except.error CONF_SECTION_ERROR
  | some s =>
    Except.ok (ConfEffect.confSet s opt value recursive_notification secure)

/-- `SpyderConfigurationAccessor.remove_conf`. -/
def remove_conf {V : Type} (conf_section : Option String) (opt : ConfKey)
    (sec : Option String) (secure : Bool) : Except PyExn (ConfEffect V) :=
  let sec := match sec with
    | none => conf_section
    | some s => some s
  match sec with
  | none => Except.error CONF_SECTION_ERROR
  | some s => Except.ok (ConfEffect.confRemoveOption s opt secure)

/-- `SpyderConfigurationAccessor.get_conf_default`. -/
def get_conf_default {V : Type} (conf_section : Option String)
    (opt : ConfKey) (sec : Option String) : Except PyExn (ConfEffect V) :=
  let sec := match sec with
    | none => conf_section
    | some s => some s
  match sec with
  | none => Except.error CONF_SECTION_ERROR
  | some s => Except.ok (ConfEffect.confGetDefault s opt)

/-- C5: each configuration accessor raises exactly when both its `section`
argument and `CONF_SECTION` are `None`, the raise happens before any `CONF`
call (an error result carries no `ConfEffect`), and every exception any of
them raises itself is a Python built-in type. -/
theorem conf_accessors_attribute_error {V : Type} (cs : Option String)
    (opt : ConfKey) (default : Option V) (value : V) (sec : Option String)
    (secure rn : Bool) :
    ((get_conf cs opt default sec secure).isOk = false
      ↔ sec = none ∧ cs = none)
    ∧ ((get_conf_options (V := V) cs sec).isOk = false
      ↔ sec = none ∧ cs = none)
    ∧ ((set_conf cs opt value sec rn secure).isOk = false
      ↔ sec = none ∧ cs = none)
    ∧ ((remove_conf (V := V) cs opt sec secure).isOk = false
      ↔ sec = none ∧ cs = none)
    ∧ ((get_conf_default (V := V) cs opt sec).isOk = false
      ↔ sec = none ∧ cs = none)
    ∧ (∀ e, get_conf cs opt default sec secure = Except.error e
        ∨ get_conf_options (V := V) cs sec = Except.error e
        ∨ set_conf cs opt value sec rn secure = Except.error e
        ∨ remove_conf (V := V) cs opt sec secure = Except.error e
        ∨ get_conf_default (V := V) cs opt sec = Except.error e
        → e = CONF_SECTION_ERROR ∧ isBuiltinExn e = true) := by
  rcases sec with _ | s <;> rcases cs with _ | c <;>
    simp [get_conf, get_conf_options, set_conf, remove_conf,
      get_conf_default, Except.isOk, Except.toBool, CONF_SECTION_ERROR,
      isBuiltinExn]

/-- Witness for C5: with both sections `None`, `get_conf` raises. -/
theorem conf_accessors_attribute_error_witness :
    (get_conf (V := Nat) none (ConfKey.name "opt") none none false).isOk
      = false :=
  (conf_accessors_attribute_error none (ConfKey.name "opt")
    (none : Option Nat) 0 none false true).1.mpr ⟨rfl, rfl⟩

/-!
## Completion protocol constants (`spyder/plugins/completion/api.py`)
-/

def SymbolKind.FILE : Int := 1

def SymbolKind.MODULE : Int := 2

def SymbolKind.NAMESPACE : Int := 3

def SymbolKind.PACKAGE : Int := 4

def SymbolKind.CLASS : Int := 5

def SymbolKind.METHOD : Int := 6

def SymbolKind.PROPERTY : Int := 7

def SymbolKind.FIELD : Int := 8

def SymbolKind.CONSTRUCTOR : Int := 9

def SymbolKind.ENUM : Int := 10

def SymbolKind.INTERFACE : Int := 11

def SymbolKind.FUNCTION : Int := 12

def SymbolKind.VARIABLE : Int := 13

def SymbolKind.CONSTANT : Int := 14

def SymbolKind.STRING : Int := 15

def SymbolKind.NUMBER : Int := 16

def SymbolKind.BOOLEAN : Int := 17

def SymbolKind.ARRAY : Int := 18

def SymbolKind.OBJECT : Int := 19

def SymbolKind.KEY : Int := 20

def SymbolKind.NULL : Int := 21

def SymbolKind.ENUM_MEMBER : Int := 22

def SymbolKind.STRUCT : Int := 23

def SymbolKind.EVENT : Int := 24

def SymbolKind.OPERATOR : Int := 25

def SymbolKind.TYPE_PARAMETER : Int := 26

def SymbolKind.BLOCK_COMMENT : Int := 224

def SymbolKind.CELL : Int := 225

/-- The integer constants assigned in the body of `class SymbolKind`, in
declaration order. -/
def SymbolKind_constants : List (String × Int) := [
  ("FILE", SymbolKind.FILE),
  ("MODULE", SymbolKind.MODULE),
  ("NAMESPACE", SymbolKind.NAMESPACE),
  ("PACKAGE", SymbolKind.PACKAGE),
  ("CLASS", SymbolKind.CLASS),
  ("METHOD", SymbolKind.METHOD),
  ("PROPERTY", SymbolKind.PROPERTY),
  ("FIELD", SymbolKind.FIELD),
  ("CONSTRUCTOR", SymbolKind.CONSTRUCTOR),
  ("ENUM", SymbolKind.ENUM),
  ("INTERFACE", SymbolKind.INTERFACE),
  ("FUNCTION", SymbolKind.FUNCTION),
  ("VARIABLE", SymbolKind.VARIABLE),
  ("CONSTANT", SymbolKind.CONSTANT),
  ("STRING", SymbolKind.STRING),
  ("NUMBER", SymbolKind.NUMBER),
  ("BOOLEAN", SymbolKind.BOOLEAN),
  ("ARRAY", SymbolKind.ARRAY),
  ("OBJECT", SymbolKind.OBJECT),
  ("KEY", SymbolKind.KEY),
  ("NULL", SymbolKind.NULL),
  ("ENUM_MEMBER", SymbolKind.ENUM_MEMBER),
  ("STRUCT", SymbolKind.STRUCT),
  ("EVENT", SymbolKind.EVENT),
  ("OPERATOR", SymbolKind.OPERATOR),
  ("TYPE_PARAMETER", SymbolKind.TYPE_PARAMETER),
  ("BLOCK_COMMENT", SymbolKind.BLOCK_COMMENT),
  ("CELL", SymbolKind.CELL)]

/-- `SYMBOL_KIND_ICON`: map from symbol kind constant to icon name. -/
def SYMBOL_KIND_ICON : List (Int × String) := [
  (SymbolKind.FILE, "file"),
  (SymbolKind.MODULE, "module"),
  (SymbolKind.NAMESPACE, "namespace"),
  (SymbolKind.PACKAGE, "package"),
  (SymbolKind.CLASS, "class"),
  (SymbolKind.METHOD, "method"),
  (SymbolKind.PROPERTY, "property"),
  (SymbolKind.FIELD, "field"),
  (SymbolKind.CONSTRUCTOR, "constructor"),
  (SymbolKind.ENUM, "enum"),
  (SymbolKind.INTERFACE, "interface"),
  (SymbolKind.FUNCTION, "function"),
  (SymbolKind.VARIABLE, "variable"),
  (SymbolKind.CONSTANT, "constant"),
  (SymbolKind.STRING, "string"),
  (SymbolKind.NUMBER, "number"),
  (SymbolKind.BOOLEAN, "boolean"),
  (SymbolKind.ARRAY, "array"),
  (SymbolKind.OBJECT, "object"),
  (SymbolKind.KEY, "key"),
  (SymbolKind.NULL, "null"),
  (SymbolKind.ENUM_MEMBER, "enum_member"),
  (SymbolKind.STRUCT, "struct"),
  (SymbolKind.EVENT, "event"),
  (SymbolKind.OPERATOR, "operator"),
  (SymbolKind.TYPE_PARAMETER, "type_parameter"),
  (SymbolKind.BLOCK_COMMENT, "blockcomment"),
  (SymbolKind.CELL, "cell")]

/-- `SYMBOL_KIND_ICON` has a non-empty icon name for a given kind value. -/
def iconOk (v : Int) : Bool :=
  match dictGet? SYMBOL_KIND_ICON v with
  | some s => decide (s ≠ "")
  | none => false

/-- C9: the symbol-icon table is total over the symbol kinds: every integer
constant declared in `SymbolKind` (including the non-standard
`BLOCK_COMMENT = 224` and `CELL = 225`) is a key of `SYMBOL_KIND_ICON` and
maps to a non-empty icon name. -/
theorem symbol_kind_icon_total :
    ∀ p ∈ SymbolKind_constants, iconOk p.2 = true := by
  decide

/-- Witness for C9 at the non-standard kind `BLOCK_COMMENT = 224`. -/
theorem symbol_kind_icon_total_witness : iconOk 224 = true :=
  symbol_kind_icon_total ("BLOCK_COMMENT", 224) (by decide)

/-- `class CompletionRequestTypes`: constant name to method string, in
declaration order (note the leading space stored for
`DOCUMENT_REFERENCES`). -/
def CompletionRequestTypes : List (String × String) := [
  ("INITIALIZE", "initialize"),
  ("INITIALIZED", "initialized"),
  ("SHUTDOWN", "shutdown"),
  ("EXIT", "exit"),
  ("CANCEL_REQUEST", "$/cancelRequest"),
  ("WINDOW_SHOW_MESSAGE", "window/showMessage"),
  ("WINDOW_SHOW_MESSAGE_REQUEST", "window/showMessageRequest"),
  ("WINDOW_LOG_MESSAGE", "window/logMessage"),
  ("TELEMETRY_EVENT", "telemetry/event"),
  ("CLIENT_REGISTER_CAPABILITY", "client/registerCapability"),
  ("CLIENT_UNREGISTER_CAPABILITY", "client/unregisterCapability"),
  ("WORKSPACE_FOLDERS", "workspace/workspaceFolders"),
  ("WORKSPACE_FOLDERS_CHANGE", "workspace/didChangeWorkspaceFolders"),
  ("WORKSPACE_CONFIGURATION", "workspace/configuration"),
  ("WORKSPACE_CONFIGURATION_CHANGE", "workspace/didChangeConfiguration"),
  ("WORKSPACE_WATCHED_FILES_UPDATE", "workspace/didChangeWatchedFiles"),
  ("WORKSPACE_SYMBOL", "workspace/symbol"),
  ("WORKSPACE_EXECUTE_COMMAND", "workspace/executeCommand"),
  ("WORKSPACE_APPLY_EDIT", "workspace/applyEdit"),
  ("DOCUMENT_PUBLISH_DIAGNOSTICS", "textDocument/publishDiagnostics"),
  ("DOCUMENT_DID_OPEN", "textDocument/didOpen"),
  ("DOCUMENT_DID_CHANGE", "textDocument/didChange"),
  ("DOCUMENT_WILL_SAVE", "textDocument/willSave"),
  ("DOCUMENT_WILL_SAVE_UNTIL", "textDocument/willSaveWaitUntil"),
  ("DOCUMENT_DID_SAVE", "textDocument/didSave"),
  ("DOCUMENT_DID_CLOSE", "textDocument/didClose"),
  ("DOCUMENT_COMPLETION", "textDocument/completion"),
  ("COMPLETION_RESOLVE", "completionItem/resolve"),
  ("DOCUMENT_HOVER", "textDocument/hover"),
  ("DOCUMENT_SIGNATURE", "textDocument/signatureHelp"),
  ("DOCUMENT_REFERENCES", " textDocument/references"),
  ("DOCUMENT_HIGHLIGHT", "textDocument/documentHighlight"),
  ("DOCUMENT_SYMBOL", "textDocument/documentSymbol"),
  ("DOCUMENT_FORMATTING", "textDocument/formatting"),
  ("DOCUMENT_FOLDING_RANGE", "textDocument/foldingRange"),
  ("DOCUMENT_RANGE_FORMATTING", "textDocument/rangeFormatting"),
  ("DOCUMENT_ON_TYPE_FORMATTING", "textDocument/onTypeFormatting"),
  ("DOCUMENT_DEFINITION", "textDocument/definition"),
  ("DOCUMENT_CODE_ACTION", "textDocument/codeAction"),
  ("DOCUMENT_CODE_LENS", "textDocument/codeLens"),
  ("CODE_LENS_RESOLVE", "codeLens/resolve"),
  ("DOCUMENT_LINKS", "textDocument/documentLink"),
  ("DOCUMENT_LINK_RESOLVE", "documentLink/resolve"),
  ("DOCUMENT_RENAME", "textDocument/rename"),
  ("DOCUMENT_CURSOR_EVENT", "textDocument/cursorEvent")]

/-- `class CompletionItemKind`: constant name to integer value, in
declaration order. -/
def CompletionItemKind_constants : List (String × Int) := [
  ("TEXT", 1),
  ("METHOD", 2),
  ("FUNCTION", 3),
  ("CONSTRUCTOR", 4),
  ("FIELD", 5),
  ("VARIABLE", 6),
  ("CLASS", 7),
  ("INTERFACE", 8),
  ("MODULE", 9),
  ("PROPERTY", 10),
  ("UNIT", 11),
  ("VALUE", 12),
  ("ENUM", 13),
  ("KEYWORD", 14),
  ("SNIPPET", 15),
  ("COLOR", 16),
  ("FILE", 17),
  ("REFERENCE", 18)]

/-- Modelled from the spec: the Language Server Protocol specification's
method names for the standard requests/notifications that
`CompletionRequestTypes` declares (everything except the Spyder extension
`DOCUMENT_CURSOR_EVENT`), keyed by the same constant names. -/
def lspMethodNames : List (String × String) := [
  ("INITIALIZE", "initialize"),
  ("INITIALIZED", "initialized"),
  ("SHUTDOWN", "shutdown"),
  ("EXIT", "exit"),
  ("CANCEL_REQUEST", "$/cancelRequest"),
  ("WINDOW_SHOW_MESSAGE", "window/showMessage"),
  ("WINDOW_SHOW_MESSAGE_REQUEST", "window/showMessageRequest"),
  ("WINDOW_LOG_MESSAGE", "window/logMessage"),
  ("TELEMETRY_EVENT", "telemetry/event"),
  ("CLIENT_REGISTER_CAPABILITY", "client/registerCapability"),
  ("CLIENT_UNREGISTER_CAPABILITY", "client/unregisterCapability"),
  ("WORKSPACE_FOLDERS", "workspace/workspaceFolders"),
  ("WORKSPACE_FOLDERS_CHANGE", "workspace/didChangeWorkspaceFolders"),
  ("WORKSPACE_CONFIGURATION", "workspace/configuration"),
  ("WORKSPACE_CONFIGURATION_CHANGE", "workspace/didChangeConfiguration"),
  ("WORKSPACE_WATCHED_FILES_UPDATE", "workspace/didChangeWatchedFiles"),
  ("WORKSPACE_SYMBOL", "workspace/symbol"),
  ("WORKSPACE_EXECUTE_COMMAND", "workspace/executeCommand"),
  ("WORKSPACE_APPLY_EDIT", "workspace/applyEdit"),
  ("DOCUMENT_PUBLISH_DIAGNOSTICS", "textDocument/publishDiagnostics"),
  ("DOCUMENT_DID_OPEN", "textDocument/didOpen"),
  ("DOCUMENT_DID_CHANGE", "textDocument/didChange"),
  ("DOCUMENT_WILL_SAVE", "textDocument/willSave"),
  ("DOCUMENT_WILL_SAVE_UNTIL", "textDocument/willSaveWaitUntil"),
  ("DOCUMENT_DID_SAVE", "textDocument/didSave"),
  ("DOCUMENT_DID_CLOSE", "textDocument/didClose"),
  ("DOCUMENT_COMPLETION", "textDocument/completion"),
  ("COMPLETION_RESOLVE", "completionItem/resolve"),
  ("DOCUMENT_HOVER", "textDocument/hover"),
  ("DOCUMENT_SIGNATURE", "textDocument/signatureHelp"),
  ("DOCUMENT_REFERENCES", "textDocument/references"),
  ("DOCUMENT_HIGHLIGHT", "textDocument/documentHighlight"),
  ("DOCUMENT_SYMBOL", "textDocument/documentSymbol"),
  ("DOCUMENT_FORMATTING", "textDocument/formatting"),
  ("DOCUMENT_FOLDING_RANGE", "textDocument/foldingRange"),
  ("DOCUMENT_RANGE_FORMATTING", "textDocument/rangeFormatting"),
  ("DOCUMENT_ON_TYPE_FORMATTING", "textDocument/onTypeFormatting"),
  ("DOCUMENT_DEFINITION", "textDocument/definition"),
  ("DOCUMENT_CODE_ACTION", "textDocument/codeAction"),
  ("DOCUMENT_CODE_LENS", "textDocument/codeLens"),
  ("CODE_LENS_RESOLVE", "codeLens/resolve"),
  ("DOCUMENT_LINKS", "textDocument/documentLink"),
  ("DOCUMENT_LINK_RESOLVE", "documentLink/resolve"),
  ("DOCUMENT_RENAME", "textDocument/rename")]

/-- Modelled from the spec: the `SymbolKind` values assigned by the LSP
specification (1 through 26). -/
def lspSymbolKindValues : List (String × Int) := [
  ("FILE", 1),
  ("MODULE", 2),
  ("NAMESPACE", 3),
  ("PACKAGE", 4),
  ("CLASS", 5),
  ("METHOD", 6),
  ("PROPERTY", 7),
  ("FIELD", 8),
  ("CONSTRUCTOR", 9),
  ("ENUM", 10),
  ("INTERFACE", 11),
  ("FUNCTION", 12),
  ("VARIABLE", 13),
  ("CONSTANT", 14),
  ("STRING", 15),
  ("NUMBER", 16),
  ("BOOLEAN", 17),
  ("ARRAY", 18),
  ("OBJECT", 19),
  ("KEY", 20),
  ("NULL", 21),
  ("ENUM_MEMBER", 22),
  ("STRUCT", 23),
  ("EVENT", 24),
  ("OPERATOR", 25),
  ("TYPE_PARAMETER", 26)]

/-- Modelled from the spec: the `CompletionItemKind` values assigned by the
LSP specification for the kinds declared by the module. -/
def lspCompletionItemKindValues : List (String × Int) := [
  ("TEXT", 1),
  ("METHOD", 2),
  ("FUNCTION", 3),
  ("CONSTRUCTOR", 4),
  ("FIELD", 5),
  ("VARIABLE", 6),
  ("CLASS", 7),
  ("INTERFACE", 8),
  ("MODULE", 9),
  ("PROPERTY", 10),
  ("UNIT", 11),
  ("VALUE", 12),
  ("ENUM", 13),
  ("KEYWORD", 14),
  ("SNIPPET", 15),
  ("COLOR", 16),
  ("FILE", 17),
  ("REFERENCE", 18)]

/-- C2 (code bug): `CompletionRequestTypes.DOCUMENT_REFERENCES` stores
`' textDocument/references'` with a leading space, so it differs from the
LSP method name, contradicting the module's documented intent; every other
standard method string, and all `SymbolKind` (1-26) and
`CompletionItemKind` values, do equal the LSP specification's. -/
theorem document_references_deviates_from_lsp :
    dictGet? CompletionRequestTypes "DOCUMENT_REFERENCES"
      = some " textDocument/references"
    ∧ (" textDocument/references" = "textDocument/references" → False)
    ∧ (lspMethodNames.all
        (fun p => dictGet CompletionRequestTypes p.1 "" == p.2)) = false
    ∧ ((lspMethodNames.filter (fun p => !(p.1 == "DOCUMENT_REFERENCES"))).all
        (fun p => dictGet CompletionRequestTypes p.1 "" == p.2)) = true
    ∧ SymbolKind_constants.take 26 = lspSymbolKindValues
    ∧ CompletionItemKind_constants = lspCompletionItemKindValues := by
  refine ⟨rfl, ?_, ?_, ?_, rfl, rfl⟩
  · decide
  · decide
  · decide

/-- A Python literal value as used in the capability dictionaries. -/
inductive JVal
  | b (v : Bool)
  | i (v : Int)
  | s (v : String)
  | arr (vs : List JVal)
  | obj (fields : List (String × JVal))
  | null

/-- Lookup of a key in a `JVal.obj`. -/
def jGet (j : JVal) (k : String) : Option JVal :=
  match j with
  | JVal.obj fields => dictGet? fields k
  | _ => none

/-- Keys of a `JVal.obj`. -/
def jKeys (j : JVal) : List String :=
  match j with
  | JVal.obj fields => fields.map Prod.fst
  | _ => []

/-- One entry of a class `__dict__`, as needed by the
`isinstance(value, int)` filter building the `symbolKind` `valueSet`. -/
inductive PyClassMember
  | pint (n : Int)
  | pstr (v : String)
  | pother
deriving DecidableEq, Repr

/-- `SymbolKind.__dict__`: the implicit class attributes around the
declared integer constants. -/
def SymbolKind_class_dict : List (String × PyClassMember) :=
  [("__module__", PyClassMember.pstr "spyder.plugins.completion.api"),
   ("__qualname__", PyClassMember.pstr "SymbolKind")]
  ++ SymbolKind_constants.map (fun p => (p.1, PyClassMember.pint p.2))
  ++ [("__dict__", PyClassMember.pother),
      ("__weakref__", PyClassMember.pother),
      ("__doc__", PyClassMember.pstr "LSP workspace symbol constants.")]

/-- `[value for value in SymbolKind.__dict__.values() if
isinstance(value, int)]`. -/
def symbolKindValueSet : List Int :=
  SymbolKind_class_dict.filterMap (fun p =>
    match p.2 with
    | PyClassMember.pint n => some n
    | _ => none)

/-- `class ResourceOperationKind` constants. -/
def ResourceOperationKind.CREATE : String := "create"

def ResourceOperationKind.RENAME : String := "rename"

def ResourceOperationKind.DELETE : String := "delete"

/-- `class FailureHandlingKind` constants (the ones used here). -/
def FailureHandlingKind.TRANSACTIONAL : String := "transactional"

/-- `WORKSPACE_CAPABILITIES`. -/
def WORKSPACE_CAPABILITIES : JVal := JVal.obj [
  ("applyEdit", JVal.b true),
  ("workspaceEdit", JVal.obj [
    ("documentChanges", JVal.b true),
    ("resourceOperations", JVal.arr [
      JVal.s ResourceOperationKind.CREATE,
      JVal.s ResourceOperationKind.RENAME,
      JVal.s ResourceOperationKind.DELETE]),
    ("failureHandling", JVal.s FailureHandlingKind.TRANSACTIONAL)]),
  ("didChangeConfiguration", JVal.obj [
    ("dynamicRegistration", JVal.b true)]),
  ("didChangeWatchedFiles", JVal.obj [
    ("dynamicRegistration", JVal.b true)]),
  ("symbol", JVal.obj [
    ("dynamicRegistration", JVal.b true)]),
  ("executeCommand", JVal.obj [
    ("dynamicRegistration", JVal.b true),
    ("symbolKind", JVal.obj [
      ("valueSet", JVal.arr (symbolKindValueSet.map JVal.i))])]),
  ("workspaceFolders", JVal.b true),
  ("configuration", JVal.b true)]

/-- `TEXT_EDITOR_CAPABILITES`. -/
def TEXT_EDITOR_CAPABILITES : JVal := JVal.obj [
  ("synchronization", JVal.obj [
    ("dynamicRegistration", JVal.b true),
    ("willSave", JVal.b true),
    ("willSaveWaitUntil", JVal.b true),
    ("didSave", JVal.b true)]),
  ("completion", JVal.obj [
    ("dynamicRegistration", JVal.b true),
    ("completionItem", JVal.obj [
      ("snippetSupport", JVal.b true)])]),
  ("hover", JVal.obj [
    ("dynamicRegistration", JVal.b true)]),
  ("signatureHelp", JVal.obj [
    ("dynamicRegistration", JVal.b true)]),
  ("references", JVal.obj [
    ("dynamicRegistration", JVal.b true)]),
  ("documentHighlight", JVal.obj [
    ("dynamicRegistration", JVal.b true)]),
  ("documentSymbol", JVal.obj [
    ("dynamicRegistration", JVal.b true)]),
  ("formatting", JVal.obj [
    ("dynamicRegistration", JVal.b true)]),
  ("rangeFormatting", JVal.obj [
    ("dynamicRegistration", JVal.b true)]),
  ("onTypeFormatting", JVal.obj [
    ("dynamicRegistration", JVal.b true)]),
  ("definition", JVal.obj [
    ("dynamicRegistration", JVal.b true)]),
  ("codeAction", JVal.obj [
    ("dynamicRegistration", JVal.b true)]),
  ("codeLens", JVal.obj [
    ("dynamicRegistration", JVal.b true)]),
  ("documentLink", JVal.obj [
    ("dynamicRegistration", JVal.b true)]),
  ("rename", JVal.obj [
    ("dynamicRegistration", JVal.b true)])]

/-- `CLIENT_CAPABILITES`. -/
def CLIENT_CAPABILITES : JVal := JVal.obj [
  ("workspace", WORKSPACE_CAPABILITIES),
  ("textDocument", TEXT_EDITOR_CAPABILITES)]

/-- C4: the client capability negotiation table is well-formed:
`CLIENT_CAPABILITES` maps exactly `workspace` to `WORKSPACE_CAPABILITIES`
and `textDocument` to `TEXT_EDITOR_CAPABILITES`, and the `executeCommand`
`symbolKind` `valueSet` inside `WORKSPACE_CAPABILITIES` holds exactly the
integer constants of `SymbolKind`: 1 through 26 plus 224 and 225. -/
theorem client_capabilities_well_formed :
    jKeys CLIENT_CAPABILITES = ["workspace", "textDocument"]
    ∧ jGet CLIENT_CAPABILITES "workspace" = some WORKSPACE_CAPABILITIES
    ∧ jGet CLIENT_CAPABILITES "textDocument" = some TEXT_EDITOR_CAPABILITES
    ∧ ((jGet WORKSPACE_CAPABILITIES "executeCommand").bind (fun j =>
        (jGet j "symbolKind").bind (fun j => jGet j "valueSet")))
        = some (JVal.arr (symbolKindValueSet.map JVal.i))
    ∧ symbolKindValueSet
        = (List.range 26).map (fun n => (n : Int) + 1) ++ [224, 225] := by
  refine ⟨rfl, rfl, rfl, rfl, by decide⟩

/-!
## `SpyderCompletionProvider` default implementation
-/

/-- Class-level attributes of a provider instance that the default method
implementations read. -/
structure SpyderCompletionProviderAttrs where
  COMPLETION_CLIENT_NAME : Option String := none
  DEFAULT_ORDER : Int := -1
  CONF_VERSION : String := "0.1.0"
deriving DecidableEq, Repr

/-- Qt signals a provider can emit (the one `start` uses). -/
inductive ProviderSignal
  | sig_provider_ready (completion_client_name : Option String)
deriving DecidableEq, Repr

/-- `SpyderCompletionProvider.start`: emit `sig_provider_ready` with
`self.COMPLETION_CLIENT_NAME`. -/
def SpyderCompletionProvider_start (p : SpyderCompletionProviderAttrs) :
    List ProviderSignal :=
  [ProviderSignal.sig_provider_ready p.COMPLETION_CLIENT_NAME]

/-- `SpyderCompletionProvider.shutdown`: default does nothing. -/
def SpyderCompletionProvider_shutdown
    (_p : SpyderCompletionProviderAttrs) : List ProviderSignal :=
  []

/-- `SpyderCompletionProvider.update_configuration`: default does nothing
with the new configuration. -/
def SpyderCompletionProvider_update_configuration
    (_p : SpyderCompletionProviderAttrs) (_config : List (String × JVal)) :
    List ProviderSignal :=
  []

/-- `SpyderCompletionProvider.start_provider`: default returns `False` for
every language. -/
def SpyderCompletionProvider_start_provider
    (_p : SpyderCompletionProviderAttrs) (_language : String) : Bool :=
  false

/-- `SpyderCompletionProvider.can_close`: default returns `True`. -/
def SpyderCompletionProvider_can_close
    (_p : SpyderCompletionProviderAttrs) : Bool :=
  true

/-- C6: the provider interface exposes the start/shutdown/configuration-
update lifecycle hooks; `start()` emits `sig_provider_ready` with exactly
the provider's `COMPLETION_CLIENT_NAME`, and in the default implementation
`start_provider` returns `False` and `can_close` returns `True` for every
language. -/
theorem provider_lifecycle_hooks (p : SpyderCompletionProviderAttrs)
    (language : String) (config : List (String × JVal)) :
    SpyderCompletionProvider_start p
      = [ProviderSignal.sig_provider_ready p.COMPLETION_CLIENT_NAME]
    ∧ SpyderCompletionProvider_shutdown p = []
    ∧ SpyderCompletionProvider_update_configuration p config = []
    ∧ SpyderCompletionProvider_start_provider p language = false
    ∧ SpyderCompletionProvider_can_close p = true :=
  ⟨rfl, rfl, rfl, rfl, rfl⟩
